import Mathlib

/-!
Shallow embedding of the gameplay logic of `src/game.js` (MYOB Dash, a
Phaser 3 endless runner).  JavaScript numbers are modelled as rationals,
counters as naturals, and the scene's mutable field bag as explicit state
records.  Each definition names the source function or lines it embeds.
-/

namespace MyobDash

/- Difficulty constants, from the GameScene constructor (game.js lines 86-95). -/

def baseScrollSpeed : ℚ := 250

def maxScrollSpeed : ℚ := 750

def speedIncreaseFactor : ℚ := 6

def baseSpawnDelay : ℚ := 1700

def minSpawnDelay : ℚ := 400

def spawnDecreaseFactor : ℚ := 18

/- Movement constants (game.js lines 75-81). -/

def coyoteTimeDuration : ℚ := 100

def jumpBufferDuration : ℚ := 100

/- Combo / scoring constants (collectCoin, game.js lines 1321-1398). -/

def comboTimeWindow : ℚ := 1500

def baseScore : ℕ := 10

/--
Difficulty-ramp state: the scene fields `scrollSpeed` and `spawnDelay`
together with the `delay` fields of the three spawn timers that
`increaseDifficulty` rewrites every tick.
-/
structure DifficultyState where
  scrollSpeed : ℚ
  spawnDelay : ℚ
  coinTimerDelay : ℚ
  enemyTimerDelay : ℚ
  gapTimerDelay : ℚ
deriving DecidableEq, Repr

/--
`increaseDifficulty(deltaSeconds)` (game.js lines 928-941):
`scrollSpeed = min(scrollSpeed + 6*dt, 750)`,
`spawnDelay = max(spawnDelay - 18*dt, 400)`, then the timer delays are
rewritten as `spawnDelay * 1.1`, `spawnDelay`, and
`max(spawnDelay * 1.8, minSpawnDelay * 2.5)`.
-/
def increaseDifficulty (s : DifficultyState) (deltaSeconds : ℚ) : DifficultyState :=
  let scroll := min (s.scrollSpeed + speedIncreaseFactor * deltaSeconds) maxScrollSpeed
  let delay := max (s.spawnDelay - spawnDecreaseFactor * deltaSeconds) minSpawnDelay
  { scrollSpeed := scroll
    spawnDelay := delay
    coinTimerDelay := delay * (11 / 10)
    enemyTimerDelay := delay
    gapTimerDelay := max (delay * (9 / 5)) (minSpawnDelay * (5 / 2)) }

/--
`startSpawning()` (game.js lines 992-1020): registers the three spawn
timers with delays `spawnDelay * 1.1`, `spawnDelay`, `spawnDelay * 2.0`.
-/
def startSpawning (s : DifficultyState) : DifficultyState :=
  { s with
    coinTimerDelay := s.spawnDelay * (11 / 10)
    enemyTimerDelay := s.spawnDelay
    gapTimerDelay := s.spawnDelay * 2 }

/--
Difficulty state right after `create()` (game.js lines 349-350 set
`scrollSpeed`/`spawnDelay` to their base values, line 675 calls
`startSpawning`).
-/
def createDifficulty : DifficultyState :=
  startSpawning
    { scrollSpeed := baseScrollSpeed
      spawnDelay := baseSpawnDelay
      coinTimerDelay := 0
      enemyTimerDelay := 0
      gapTimerDelay := 0 }

/--
The per-tick difficulty trace of a run: the states visited when
`increaseDifficulty` is applied once per tick for the given list of
per-tick `deltaSeconds` values (update loop, game.js line 866).
The head is the initial state.
-/
def difficultyTrace : DifficultyState → List ℚ → List DifficultyState
  | s, [] => [s]
  | s, d :: ds => s :: difficultyTrace (increaseDifficulty s d) ds

/-- Modelled from the spec sentence of C5: pit cadence claimed to be
`max(2.0 * base delay, 2.5 * floor)`. -/
def pitCadenceSpec (spawnDelay : ℚ) : ℚ :=
  max (spawnDelay * 2) (minSpawnDelay * (5 / 2))

/-- The cadence relation `increaseDifficulty` re-establishes every tick
(game.js lines 938-940). -/
def cadenceInv (t : DifficultyState) : Prop :=
  t.coinTimerDelay = t.spawnDelay * (11 / 10)
    ∧ t.enemyTimerDelay = t.spawnDelay
    ∧ t.gapTimerDelay = max (t.spawnDelay * (9 / 5)) (minSpawnDelay * (5 / 2))

/-- Power-up types drawn from `powerUpPool = ['speed', 'shield']`
(triggerPowerUp, game.js line 1471). -/
inductive PowerUpType where
  | speed
  | shield
deriving DecidableEq, Repr

/--
The scene's run-relevant mutable fields: Run State, Power-Up Modifier,
Character flags and the cross-run configuration (player scale, high
score).  Mirrors the GameScene field bag.
-/
structure SceneState where
  score : ℕ
  gameOver : Bool
  scrollSpeed : ℚ
  spawnDelay : ℚ
  powerUpActive : Bool
  activePowerUpType : Option PowerUpType
  coinsCollectedForPowerUp : ℕ
  hasDoubleJumped : Bool
  jumpDownActive : Bool
  coyoteTimeCounter : ℚ
  jumpBufferCounter : ℚ
  wasInAir : Bool
  comboCount : ℕ
  scoreMultiplier : ℕ
  lastCoinCollectTime : ℚ
  highScore : ℕ
  playerScaleX : ℚ
  playerScaleY : ℚ
deriving DecidableEq, Repr

/--
Field values set in the GameScene constructor (game.js lines 6-140):
in particular `comboCount = 0`, `lastCoinCollectTime = 0`,
`scoreMultiplier = 1`, `highScore = 0`, `playerScaleX = playerScaleY = 1`.
The constructor runs once per page load; `scene.restart()` does not rerun
it.
-/
def constructorInit : SceneState :=
  { score := 0
    gameOver := false
    scrollSpeed := 0
    spawnDelay := 0
    powerUpActive := false
    activePowerUpType := none
    coinsCollectedForPowerUp := 0
    hasDoubleJumped := false
    jumpDownActive := false
    coyoteTimeCounter := 0
    jumpBufferCounter := 0
    wasInAir := false
    comboCount := 0
    scoreMultiplier := 1
    lastCoinCollectTime := 0
    highScore := 0
    playerScaleX := 1
    playerScaleY := 1 }

/--
The "Reset State Variables" block at the top of `create()` (game.js lines
345-365).  Note that `comboCount`, `scoreMultiplier` and
`lastCoinCollectTime` are NOT in this block: they are only initialized in
the constructor.
-/
def createReset (s : SceneState) : SceneState :=
  { s with
    score := 0
    gameOver := false
    scrollSpeed := baseScrollSpeed
    spawnDelay := baseSpawnDelay
    powerUpActive := false
    coinsCollectedForPowerUp := 0
    hasDoubleJumped := false
    jumpDownActive := false
    coyoteTimeCounter := 0
    jumpBufferCounter := 0
    wasInAir := false
    activePowerUpType := none }

/--
`restartGame()` (game.js lines 1779-1800): only acts after game over;
stores the player-scale record in the scene data manager (so the scale
survives) and calls `scene.restart()`, which reruns `create()` — i.e. the
`createReset` block — but not the constructor.
-/
def restartGame (s : SceneState) : SceneState :=
  if s.gameOver then createReset s else s

/--
`triggerPowerUp()` (game.js lines 1468-1475): no-op while a power-up is
already active; otherwise picks a type (randomness injected as `pick`),
sets `powerUpActive` and resets the pickup counter.
-/
def triggerPowerUp (s : SceneState) (pick : PowerUpType) : SceneState :=
  if s.powerUpActive then s
  else
    { s with
      activePowerUpType := some pick
      powerUpActive := true
      coinsCollectedForPowerUp := 0 }

/-- The multiplier-tier ladder of `collectCoin()` (game.js lines
1360-1368): 4x for combo >= 8, 3x for >= 5, 2x for >= 3, else 1x. -/
def multiplierFor (c : ℕ) : ℕ :=
  if 8 ≤ c then 4 else if 5 ≤ c then 3 else if 3 ≤ c then 2 else 1

/--
The state changes of `collectCoin()` (game.js lines 1296-1422): the combo
branch (increment if `now - lastCoinCollectTime < 1500`, else reset to 1),
the multiplier tiers, `lastCoinCollectTime = now`, the score award
`10 * scoreMultiplier`, the pickup-counter increment, and the power-up
trigger check (`!powerUpActive && coinsCollectedForPowerUp >= 20`),
which calls `triggerPowerUp` and zeroes the counter.
-/
def collectCoin (s : SceneState) (now : ℚ) (pick : PowerUpType) : SceneState :=
  let s1 :=
    if now - s.lastCoinCollectTime < comboTimeWindow then
      let c := s.comboCount + 1
      { s with comboCount := c, scoreMultiplier := multiplierFor c }
    else { s with comboCount := 1, scoreMultiplier := 1 }
  let s2 := { s1 with lastCoinCollectTime := now }
  let s3 := { s2 with score := s2.score + baseScore * s2.scoreMultiplier }
  let s4 := { s3 with coinsCollectedForPowerUp := s3.coinsCollectedForPowerUp + 1 }
  if s4.powerUpActive = false ∧ 20 ≤ s4.coinsCollectedForPowerUp then
    { triggerPowerUp s4 pick with coinsCollectedForPowerUp := 0 }
  else s4

/--
`endGame()` (game.js lines 1736-1774): one-way transition to game over;
force-clears any active power-up.
-/
def endGame (s : SceneState) : SceneState :=
  if s.gameOver then s
  else
    let s1 := { s with gameOver := true }
    if s1.powerUpActive then
      { s1 with powerUpActive := false, activePowerUpType := none }
    else s1

/--
`hitEnemy()` (game.js lines 1683-1731): guard on `gameOver`; if the shield
power-up is active, consume it (deactivate, cancel the duration timer) and
leave the run alive; otherwise end the run.
-/
def hitEnemy (s : SceneState) : SceneState :=
  if s.gameOver then s
  else if s.activePowerUpType = some PowerUpType.shield ∧ s.powerUpActive then
    { s with powerUpActive := false, activePowerUpType := none }
  else endGame s

/--
A hazard collision event as dispatched by the physics capability: the two
colliders registered in `create()` (game.js lines 651-652) pass the
process callback `() => !this.powerUpActive && !this.gameOver`, so
`hitEnemy` only runs when that callback returns true.
-/
def hazardCollisionStep (s : SceneState) : SceneState :=
  if s.powerUpActive = false ∧ s.gameOver = false then hitEnemy s else s

/-- A running state with the shield power-up active. -/
def shieldScene : SceneState :=
  { constructorInit with
    powerUpActive := true
    activePowerUpType := some PowerUpType.shield }

/-- A running state with the speed power-up active. -/
def speedScene : SceneState :=
  { constructorInit with
    powerUpActive := true
    activePowerUpType := some PowerUpType.speed }

/-- A concrete game-over state with mid-run combo fields, reached e.g. by
collecting five coins in quick succession and then hitting a hazard. -/
def gameOverScene : SceneState :=
  { constructorInit with
    gameOver := true
    score := 370
    comboCount := 5
    scoreMultiplier := 3
    lastCoinCollectTime := 9000
    coinsCollectedForPowerUp := 7
    highScore := 420
    playerScaleX := 2
    playerScaleY := 2 }

/-- A running state with an ongoing 2-combo and 20 points. -/
def comboScene : SceneState :=
  { constructorInit with comboCount := 2, score := 20 }

/-- A running state one pickup short of the power-up threshold. -/
def preTriggerScene : SceneState :=
  { constructorInit with coinsCollectedForPowerUp := 19 }

/-- Character movement state owned by the update loop (game.js). -/
structure PlayerState where
  velocityY : ℚ
  hasDoubleJumped : Bool
  jumpDownActive : Bool
  coyoteTimeCounter : ℚ
  jumpBufferCounter : ℚ
  wasInAir : Bool
deriving DecidableEq, Repr

/-- Per-tick inputs to the movement part of `update(time, delta)`:
the frame delta (ms), the two just-pressed key events, and the physics
engine's ground-contact flag. -/
structure TickInput where
  delta : ℚ
  jumpPressed : Bool
  downPressed : Bool
  touchingGround : Bool
deriving DecidableEq, Repr

/--
Landing logic (game.js lines 752-774).  On ground contact: clear air
flags, refill coyote time, and if a buffered jump is pending execute a
ground jump (velocity -575) consuming both windows.  Airborne: decay the
coyote counter.  The returned Bool reports a (buffered) ground jump.
-/
def landingPhase (s : PlayerState) (i : TickInput) : PlayerState × Bool :=
  if i.touchingGround then
    let s1 :=
      { s with
        wasInAir := false
        hasDoubleJumped := false
        jumpDownActive := false
        coyoteTimeCounter := coyoteTimeDuration }
    if 0 < s1.jumpBufferCounter then
      ({ s1 with velocityY := -575, coyoteTimeCounter := 0, jumpBufferCounter := 0 }, true)
    else (s1, false)
  else
    ({ s with wasInAir := false, coyoteTimeCounter := s.coyoteTimeCounter - i.delta }, false)

/--
Jump logic (game.js lines 777-801).  Ground/coyote jump (velocity -575),
else double jump (velocity -500), else register a buffered jump request
(`jumpBufferCounter = 100`).  The returned Bool reports a ground jump.
-/
def jumpPhase (s : PlayerState) (i : TickInput) : PlayerState × Bool :=
  if i.jumpPressed then
    if i.touchingGround ∨ 0 < s.coyoteTimeCounter then
      ({ s with velocityY := -575, coyoteTimeCounter := 0, jumpBufferCounter := 0 }, true)
    else if ¬i.touchingGround ∧ ¬s.hasDoubleJumped then
      ({ s with
          velocityY := -500
          hasDoubleJumped := true
          coyoteTimeCounter := 0
          jumpBufferCounter := 0 }, false)
    else if ¬i.touchingGround then
      ({ s with jumpBufferCounter := jumpBufferDuration }, false)
    else (s, false)
  else (s, false)

/--
Buffer decrement and fast-fall (game.js lines 803-812): the `if/else if`
chain decrements a positive jump buffer, and only OTHERWISE applies the
fast-fall (velocity 500, `jumpDownActive = true`) when the down key was
pressed while airborne.
-/
def bufferFastFallPhase (s : PlayerState) (i : TickInput) : PlayerState :=
  if 0 < s.jumpBufferCounter then
    { s with jumpBufferCounter := s.jumpBufferCounter - i.delta }
  else if i.downPressed ∧ ¬i.touchingGround then
    { s with velocityY := 500, jumpDownActive := true }
  else s

/--
The movement portion of one `update` tick (game.js lines 747-812), in
source order: landing logic, jump logic, buffer decrement / fast-fall.
The second component counts ground jumps (velocity -575) executed this
tick.
-/
def updateMovement (s : PlayerState) (i : TickInput) : PlayerState × ℕ :=
  let l := landingPhase s i
  let j := jumpPhase l.1 i
  let f := bufferFastFallPhase j.1 i
  (f, (if l.2 then 1 else 0) + (if j.2 then 1 else 0))

/-- Run the movement update over a list of ticks. -/
def stepTicks : PlayerState → List TickInput → PlayerState
  | s, [] => s
  | s, i :: is => stepTicks (updateMovement s i).1 is

/-- Total number of ground jumps executed over a list of ticks. -/
def groundJumps : PlayerState → List TickInput → ℕ
  | _, [] => 0
  | s, i :: is => (updateMovement s i).2 + groundJumps (updateMovement s i).1 is

/-- An airborne tick with no input. -/
def airTick (d : ℚ) : TickInput :=
  { delta := d, jumpPressed := false, downPressed := false, touchingGround := false }

/-- An airborne tick on which the jump key is pressed. -/
def pressTick (d : ℚ) : TickInput :=
  { delta := d, jumpPressed := true, downPressed := false, touchingGround := false }

/-- The tick on which the character touches the ground again, no input. -/
def landTick (d : ℚ) : TickInput :=
  { delta := d, jumpPressed := false, downPressed := false, touchingGround := true }

/-- The C7 scenario: a jump pressed while airborne, `k` further airborne
ticks, then the landing tick. -/
def bufferedTrace (d0 dL : ℚ) (ds : List ℚ) : List TickInput :=
  pressTick d0 :: ds.map airTick ++ [landTick dL]

/-- The C7 scenario's concrete start state: airborne after a used double
jump (which zeroed the coyote counter). -/
def airborneAfterDoubleJump : PlayerState :=
  { velocityY := 120
    hasDoubleJumped := true
    jumpDownActive := false
    coyoteTimeCounter := 0
    jumpBufferCounter := 0
    wasInAir := false }

/--
The data an overlap event between the player and a pit body carries into
`playerFellInPit` (game.js lines 2287-2295): the player's ground-contact
flag, the player body's bottom edge and the pit body's top edge.
-/
structure PitOverlap where
  touchingDown : Bool
  playerBottom : ℚ
  pitTop : ℚ
deriving DecidableEq, Repr

/--
`playerFellInPit(player, pit)` (game.js lines 2287-2295): returns whether
`endGame()` is called for this overlap event.  Guarded on `gameOver`;
fatal only when the player is touching the ground AND
`player.body.bottom >= pit.body.top + 5`.
-/
def playerFellInPit (gameOver : Bool) (e : PitOverlap) : Bool :=
  if gameOver then false
  else e.touchingDown && decide (e.pitTop + 5 ≤ e.playerBottom)

/-- Modelled from the spec sentence of C9: a pit overlap is fatal exactly
when the character is ground-contacted and its bottom is at or below the
pit's surface (its top edge). -/
def pitFatalSpec (e : PitOverlap) : Bool :=
  e.touchingDown && decide (e.pitTop ≤ e.playerBottom)

/-- A grounded overlap with the player's bottom exactly at the pit's top
edge. -/
def atSurfaceOverlap : PitOverlap :=
  { touchingDown := true, playerBottom := 0, pitTop := 0 }

/- ------------------------------------------------------------------ -/
/- Theorems                                                            -/
/- ------------------------------------------------------------------ -/

lemma difficultyTrace_head_eq (s : DifficultyState) (ds : List ℚ) :
    (difficultyTrace s ds).head? = some s := by
  cases ds <;> simp [difficultyTrace]

lemma increaseDifficulty_scroll_le (s : DifficultyState) (d : ℚ) :
    (increaseDifficulty s d).scrollSpeed ≤ maxScrollSpeed :=
  min_le_right _ _

lemma increaseDifficulty_delay_ge (s : DifficultyState) (d : ℚ) :
    minSpawnDelay ≤ (increaseDifficulty s d).spawnDelay :=
  le_max_right _ _

lemma increaseDifficulty_scroll_mono (s : DifficultyState) (d : ℚ)
    (hd : 0 ≤ d) (hs : s.scrollSpeed ≤ maxScrollSpeed) :
    s.scrollSpeed ≤ (increaseDifficulty s d).scrollSpeed := by
  refine le_min ?_ hs
  have : 0 ≤ speedIncreaseFactor * d := by
    have h6 : (0 : ℚ) ≤ speedIncreaseFactor := by norm_num [speedIncreaseFactor]
    exact mul_nonneg h6 hd
  linarith

lemma increaseDifficulty_delay_anti (s : DifficultyState) (d : ℚ)
    (hd : 0 ≤ d) (hs : minSpawnDelay ≤ s.spawnDelay) :
    (increaseDifficulty s d).spawnDelay ≤ s.spawnDelay := by
  refine max_le ?_ hs
  have : 0 ≤ spawnDecreaseFactor * d := by
    have h18 : (0 : ℚ) ≤ spawnDecreaseFactor := by norm_num [spawnDecreaseFactor]
    exact mul_nonneg h18 hd
  linarith

/-- The difficulty invariant and monotonicity along any trace. -/
lemma difficultyTrace_chain (s : DifficultyState) (ds : List ℚ)
    (hds : ∀ d ∈ ds, 0 ≤ d)
    (hsc : s.scrollSpeed ≤ maxScrollSpeed)
    (hsd : minSpawnDelay ≤ s.spawnDelay) :
    List.Chain'
        (fun a b => a.scrollSpeed ≤ b.scrollSpeed ∧ b.spawnDelay ≤ a.spawnDelay)
        (difficultyTrace s ds)
      ∧ ∀ t ∈ difficultyTrace s ds,
          t.scrollSpeed ≤ maxScrollSpeed ∧ minSpawnDelay ≤ t.spawnDelay := by
  induction ds generalizing s with
  | nil =>
      refine ⟨by simp [difficultyTrace], ?_⟩
      intro t ht
      simp [difficultyTrace] at ht
      subst ht
      exact ⟨hsc, hsd⟩
  | cons d ds ih =>
      have hd : 0 ≤ d := hds d (by simp)
      have hds2 : ∀ x ∈ ds, 0 ≤ x := fun x hx => hds x (by simp [hx])
      have htl := ih (increaseDifficulty s d) hds2
        (increaseDifficulty_scroll_le s d) (increaseDifficulty_delay_ge s d)
      constructor
      · rw [difficultyTrace, List.chain'_cons']
        refine ⟨?_, htl.1⟩
        intro b hb
        rw [difficultyTrace_head_eq] at hb
        simp only [Option.mem_def, Option.some.injEq] at hb
        subst hb
        exact ⟨increaseDifficulty_scroll_mono s d hd hsc,
               increaseDifficulty_delay_anti s d hd hsd⟩
      · intro t ht
        rw [difficultyTrace] at ht
        rcases List.mem_cons.mp ht with h | h
        · subst h; exact ⟨hsc, hsd⟩
        · exact htl.2 t h

/--
Claim C3: for every sequence of per-tick delta values within a single run,
`scrollSpeed` is monotonically non-decreasing and never exceeds
`maxScrollSpeed` (750), and `spawnDelay` is monotonically non-increasing
and never drops below `minSpawnDelay` (400).
-/
theorem scrollSpeed_spawnDelay_monotone_bounded (ds : List ℚ)
    (hds : ∀ d ∈ ds, 0 ≤ d) :
    List.Chain'
        (fun a b => a.scrollSpeed ≤ b.scrollSpeed ∧ b.spawnDelay ≤ a.spawnDelay)
        (difficultyTrace createDifficulty ds)
      ∧ ∀ t ∈ difficultyTrace createDifficulty ds,
          t.scrollSpeed ≤ maxScrollSpeed ∧ minSpawnDelay ≤ t.spawnDelay := by
  refine difficultyTrace_chain createDifficulty ds hds ?_ ?_
  · norm_num [createDifficulty, startSpawning, baseScrollSpeed, maxScrollSpeed]
  · norm_num [createDifficulty, startSpawning, baseSpawnDelay, minSpawnDelay]

/-- Witness for C3 at a concrete delta sequence. -/
theorem scrollSpeed_spawnDelay_monotone_bounded_witness :
    (∀ d ∈ [(1 : ℚ), 10, 2], 0 ≤ d)
      ∧ (List.Chain'
            (fun a b => a.scrollSpeed ≤ b.scrollSpeed ∧ b.spawnDelay ≤ a.spawnDelay)
            (difficultyTrace createDifficulty [(1 : ℚ), 10, 2])
          ∧ ∀ t ∈ difficultyTrace createDifficulty [(1 : ℚ), 10, 2],
              t.scrollSpeed ≤ maxScrollSpeed ∧ minSpawnDelay ≤ t.spawnDelay) :=
  ⟨by norm_num,
   scrollSpeed_spawnDelay_monotone_bounded [(1 : ℚ), 10, 2] (by norm_num)⟩

lemma cadenceInv_increaseDifficulty (s : DifficultyState) (d : ℚ) :
    cadenceInv (increaseDifficulty s d) := by
  simp [cadenceInv, increaseDifficulty]

lemma difficultyTrace_all_cadence (s : DifficultyState) (ds : List ℚ)
    (hs : cadenceInv s) : ∀ t ∈ difficultyTrace s ds, cadenceInv t := by
  induction ds generalizing s with
  | nil =>
      intro t ht
      simp [difficultyTrace] at ht
      subst ht
      exact hs
  | cons d ds ih =>
      intro t ht
      rw [difficultyTrace] at ht
      rcases List.mem_cons.mp ht with h | h
      · subst h; exact hs
      · exact ih (increaseDifficulty s d) (cadenceInv_increaseDifficulty s d) t h

/--
Counterexample for C5: the claim says the pit spawn cadence is always
`max(2.0 * base spawn delay, 2.5 * minimum spawn delay)`, but already
after the very first difficulty tick (one second at `spawnDelay = 1682`)
the code's pit timer delay is `max(1682 * 1.8, 1000) = 3027.6`, not the
claimed `max(1682 * 2, 1000) = 3364`.
-/
theorem pit_cadence_claim_false :
    (increaseDifficulty createDifficulty 1).gapTimerDelay
      ≠ pitCadenceSpec (increaseDifficulty createDifficulty 1).spawnDelay := by
  norm_num [increaseDifficulty, createDifficulty, startSpawning, pitCadenceSpec,
    baseScrollSpeed, maxScrollSpeed, speedIncreaseFactor, baseSpawnDelay,
    minSpawnDelay, spawnDecreaseFactor, max_def, min_def]

/--
Claim C5 as amended: during a run the coin spawn cadence is 1.1 times the
base spawn delay and the hazard spawn cadence equals the base spawn delay;
the pit spawn cadence is 2.0 times the base delay when the timers are
registered at run start, and `max(1.8 * base delay, 2.5 * minimum delay)`
after every difficulty tick.
-/
theorem spawn_cadence_amended (ds : List ℚ) :
    (createDifficulty.coinTimerDelay = createDifficulty.spawnDelay * (11 / 10)
      ∧ createDifficulty.enemyTimerDelay = createDifficulty.spawnDelay
      ∧ createDifficulty.gapTimerDelay = createDifficulty.spawnDelay * 2)
    ∧ ∀ t ∈ (difficultyTrace createDifficulty ds).tail, cadenceInv t := by
  constructor
  · simp [createDifficulty, startSpawning]
  · cases ds with
    | nil => simp [difficultyTrace]
    | cons d ds =>
        rw [difficultyTrace]
        simp only [List.tail_cons]
        exact difficultyTrace_all_cadence _ ds
          (cadenceInv_increaseDifficulty createDifficulty d)

/-- Witness for C5 (amended) at a concrete one-tick run. -/
theorem spawn_cadence_amended_witness :
    cadenceInv (increaseDifficulty createDifficulty 1)
      ∧ createDifficulty.gapTimerDelay = createDifficulty.spawnDelay * 2 :=
  ⟨(spawn_cadence_amended [1]).2 (increaseDifficulty createDifficulty 1)
      (by simp [difficultyTrace]),
   (spawn_cadence_amended [1]).1.2.2⟩

/--
Claim C1 is the intended behavior but the code contradicts it: with the
shield power-up active, a hazard collision event is filtered out by the
colliders' process callback (`!powerUpActive && !gameOver`), so the state
is entirely unchanged — the shield is NOT consumed and stays active, while
`hitEnemy`'s own shield branch (which would implement exactly the claimed
consume-the-shield behavior, and which the README documents as "protects
from a single hit / until hit") is unreachable from the colliders.
-/
theorem shield_hit_ignored_not_consumed :
    hazardCollisionStep shieldScene = shieldScene
      ∧ shieldScene.powerUpActive = true
      ∧ (hitEnemy shieldScene).powerUpActive = false
      ∧ (hitEnemy shieldScene).activePowerUpType = none
      ∧ (hitEnemy shieldScene).gameOver = false := by
  refine ⟨?_, rfl, ?_, ?_, ?_⟩ <;>
    simp [hazardCollisionStep, hitEnemy, shieldScene, constructorInit]

/--
Claim C10: while any power-up is active — speed as well as shield — the
hazard collision handler is suppressed entirely by the colliders' process
callbacks, so an overlap with a ground or flying hazard leaves the whole
state unchanged: it never ends the run and never changes power-up state.
-/
theorem powerup_hazard_immunity (s : SceneState)
    (h : s.powerUpActive = true) : hazardCollisionStep s = s := by
  simp [hazardCollisionStep, h]

/-- Witness for C10 at a concrete state with the speed power-up active. -/
theorem powerup_hazard_immunity_witness :
    speedScene.powerUpActive = true
      ∧ hazardCollisionStep speedScene = speedScene :=
  ⟨rfl, powerup_hazard_immunity speedScene rfl⟩

/--
Counterexample for C2: restarting after game over does NOT reinitialize
every Run State field — from the concrete game-over state `gameOverScene`
(combo count 5, multiplier tier 3, last pickup at t = 9000ms), the restart
transitions back to running but leaves combo count, multiplier tier and
time of last pickup at their previous-run values instead of their
create-time defaults (0, 1, 0).
-/
theorem restart_not_full_reset :
    (restartGame gameOverScene).gameOver = false
      ∧ (restartGame gameOverScene).comboCount = 5
      ∧ (restartGame gameOverScene).comboCount ≠ constructorInit.comboCount
      ∧ (restartGame gameOverScene).scoreMultiplier = 3
      ∧ (restartGame gameOverScene).lastCoinCollectTime = 9000 := by
  refine ⟨?_, ?_, ?_, ?_, ?_⟩ <;>
    simp [restartGame, gameOverScene, createReset, constructorInit]

/--
Claim C2 as amended: restarting after game-over reinitializes exactly the
fields of the `create()` reset block — score, scroll speed, spawn delay,
power-up state, the pickup counter, and the jump/coyote/buffer flags —
and transitions back to running, preserving the configured visual scale
and the all-time high score; combo count, multiplier tier and the time of
last collectible pickup are initialized only in the constructor and
persist across the restart.
-/
theorem restart_resets_create_fields (s : SceneState)
    (h : s.gameOver = true) :
    (restartGame s).score = 0
      ∧ (restartGame s).gameOver = false
      ∧ (restartGame s).scrollSpeed = baseScrollSpeed
      ∧ (restartGame s).spawnDelay = baseSpawnDelay
      ∧ (restartGame s).powerUpActive = false
      ∧ (restartGame s).activePowerUpType = none
      ∧ (restartGame s).coinsCollectedForPowerUp = 0
      ∧ (restartGame s).hasDoubleJumped = false
      ∧ (restartGame s).jumpDownActive = false
      ∧ (restartGame s).coyoteTimeCounter = 0
      ∧ (restartGame s).jumpBufferCounter = 0
      ∧ (restartGame s).wasInAir = false
      ∧ (restartGame s).playerScaleX = s.playerScaleX
      ∧ (restartGame s).playerScaleY = s.playerScaleY
      ∧ (restartGame s).highScore = s.highScore
      ∧ (restartGame s).comboCount = s.comboCount
      ∧ (restartGame s).scoreMultiplier = s.scoreMultiplier
      ∧ (restartGame s).lastCoinCollectTime = s.lastCoinCollectTime := by
  simp [restartGame, h, createReset]

/-- Witness for C2 (amended) at the concrete game-over state. -/
theorem restart_resets_create_fields_witness :
    gameOverScene.gameOver = true
      ∧ (restartGame gameOverScene).score = 0
      ∧ (restartGame gameOverScene).gameOver = false
      ∧ (restartGame gameOverScene).highScore = gameOverScene.highScore
      ∧ (restartGame gameOverScene).playerScaleX = gameOverScene.playerScaleX
      ∧ (restartGame gameOverScene).comboCount = gameOverScene.comboCount :=
  ⟨rfl,
   (restart_resets_create_fields gameOverScene rfl).1,
   (restart_resets_create_fields gameOverScene rfl).2.1,
   (restart_resets_create_fields gameOverScene rfl).2.2.2.2.2.2.2.2.2.2.2.2.2.2.1,
   (restart_resets_create_fields gameOverScene rfl).2.2.2.2.2.2.2.2.2.2.2.2.1,
   (restart_resets_create_fields gameOverScene rfl).2.2.2.2.2.2.2.2.2.2.2.2.2.2.2.1⟩

lemma collectCoin_comboCount (s : SceneState) (now : ℚ) (pick : PowerUpType) :
    (collectCoin s now pick).comboCount =
      if now - s.lastCoinCollectTime < comboTimeWindow then s.comboCount + 1
      else 1 := by
  by_cases h : now - s.lastCoinCollectTime < comboTimeWindow <;>
    simp only [collectCoin, triggerPowerUp, h, if_true, if_false] <;>
    split <;> simp_all

lemma collectCoin_scoreMultiplier (s : SceneState) (now : ℚ) (pick : PowerUpType) :
    (collectCoin s now pick).scoreMultiplier =
      if now - s.lastCoinCollectTime < comboTimeWindow then
        multiplierFor (s.comboCount + 1)
      else 1 := by
  by_cases h : now - s.lastCoinCollectTime < comboTimeWindow <;>
    simp only [collectCoin, triggerPowerUp, h, if_true, if_false] <;>
    split <;> simp_all

lemma collectCoin_score (s : SceneState) (now : ℚ) (pick : PowerUpType) :
    (collectCoin s now pick).score =
      s.score + baseScore * (collectCoin s now pick).scoreMultiplier := by
  rw [collectCoin_scoreMultiplier]
  by_cases h : now - s.lastCoinCollectTime < comboTimeWindow <;>
    simp only [collectCoin, triggerPowerUp, h, if_true, if_false] <;>
    split <;> simp_all

/--
Claim C4: on every collectible pickup, the combo count resets to 1 if and
only if the time since the previous pickup is at least 1500ms (otherwise
it increments), and the multiplier after the pickup is exactly 1 for combo
count below 3, 2 for 3-4, 3 for 5-7 and 4 for 8 or more, with the awarded
points equal to 10 times that multiplier.  (The reset-direction of the
"iff" is stated for states with at least one prior pickup in the combo,
i.e. `comboCount >= 1`.)
-/
theorem combo_reset_tiers_award (s : SceneState) (now : ℚ) (pick : PowerUpType) :
    (comboTimeWindow ≤ now - s.lastCoinCollectTime →
        (collectCoin s now pick).comboCount = 1)
      ∧ (now - s.lastCoinCollectTime < comboTimeWindow →
          (collectCoin s now pick).comboCount = s.comboCount + 1)
      ∧ (1 ≤ s.comboCount →
          ((collectCoin s now pick).comboCount = 1
            ↔ comboTimeWindow ≤ now - s.lastCoinCollectTime))
      ∧ ((collectCoin s now pick).comboCount < 3 →
          (collectCoin s now pick).scoreMultiplier = 1)
      ∧ (3 ≤ (collectCoin s now pick).comboCount
            ∧ (collectCoin s now pick).comboCount ≤ 4 →
          (collectCoin s now pick).scoreMultiplier = 2)
      ∧ (5 ≤ (collectCoin s now pick).comboCount
            ∧ (collectCoin s now pick).comboCount ≤ 7 →
          (collectCoin s now pick).scoreMultiplier = 3)
      ∧ (8 ≤ (collectCoin s now pick).comboCount →
          (collectCoin s now pick).scoreMultiplier = 4)
      ∧ (collectCoin s now pick).score
          = s.score + baseScore * (collectCoin s now pick).scoreMultiplier := by
  have hc := collectCoin_comboCount s now pick
  have hm := collectCoin_scoreMultiplier s now pick
  by_cases h : now - s.lastCoinCollectTime < comboTimeWindow
  · rw [if_pos h] at hc hm
    rw [multiplierFor] at hm
    refine ⟨fun hge => absurd h (not_lt.mpr hge), fun _ => hc, ?_, ?_, ?_, ?_, ?_,
      collectCoin_score s now pick⟩
    · intro h1
      rw [hc]
      constructor
      · intro h2; omega
      · intro h2; exact absurd h (not_lt.mpr h2)
    all_goals
      intro hrange
      rw [hc] at hrange
      rw [hm]
      split_ifs <;> omega
  · rw [if_neg h] at hc hm
    have hge : comboTimeWindow ≤ now - s.lastCoinCollectTime := not_lt.mp h
    refine ⟨fun _ => hc, fun hlt => absurd hlt h, fun _ => ?_, fun _ => hm,
      ?_, ?_, ?_, collectCoin_score s now pick⟩
    · rw [hc]
      exact ⟨fun _ => hge, fun _ => rfl⟩
    all_goals
      intro hrange
      rw [hc] at hrange
      exact absurd hrange (by omega)

/-- Witness for C4: pickups 200ms apart at combo count 2 continue the
combo (count 3, tier 2, award 20). -/
theorem combo_reset_tiers_award_witness :
    (1 : ℕ) ≤ comboScene.comboCount
      ∧ (200 : ℚ) - comboScene.lastCoinCollectTime < comboTimeWindow
      ∧ (collectCoin comboScene 200 PowerUpType.speed).comboCount = 3
      ∧ (collectCoin comboScene 200 PowerUpType.speed).scoreMultiplier = 2
      ∧ (collectCoin comboScene 200 PowerUpType.speed).score = 40 := by
  have hlt : (200 : ℚ) - comboScene.lastCoinCollectTime < comboTimeWindow := by
    norm_num [comboScene, constructorInit, comboTimeWindow]
  have h := combo_reset_tiers_award comboScene 200 PowerUpType.speed
  have hcount : (collectCoin comboScene 200 PowerUpType.speed).comboCount = 3 := by
    rw [h.2.1 hlt]
    norm_num [comboScene, constructorInit]
  have htier := h.2.2.2.2.1 (by rw [hcount]; exact ⟨le_refl 3, by norm_num⟩)
  have hscore := h.2.2.2.2.2.2.2
  refine ⟨by norm_num [comboScene, constructorInit], hlt, hcount, htier, ?_⟩
  rw [hscore, htier]
  norm_num [comboScene, constructorInit, baseScore]

/--
Claim C6: a power-up trigger occurs exactly when the cumulative pickup
counter reaches 20 (after the increment) while no power-up is active, the
counter resets to 0 exactly on a successful trigger, reaching or exceeding
20 while a power-up is active neither activates a new power-up nor resets
the counter, and triggering while active is a no-op — so at most one
power-up is active at a time.
-/
theorem powerup_trigger_exactly (s : SceneState) (now : ℚ) (pick : PowerUpType) :
    (s.powerUpActive = true → triggerPowerUp s pick = s)
      ∧ (s.powerUpActive = true →
          (collectCoin s now pick).powerUpActive = true
            ∧ (collectCoin s now pick).activePowerUpType = s.activePowerUpType
            ∧ (collectCoin s now pick).coinsCollectedForPowerUp
                = s.coinsCollectedForPowerUp + 1)
      ∧ (s.powerUpActive = false → 20 ≤ s.coinsCollectedForPowerUp + 1 →
          (collectCoin s now pick).powerUpActive = true
            ∧ (collectCoin s now pick).activePowerUpType = some pick
            ∧ (collectCoin s now pick).coinsCollectedForPowerUp = 0)
      ∧ (s.powerUpActive = false → s.coinsCollectedForPowerUp + 1 < 20 →
          (collectCoin s now pick).powerUpActive = false
            ∧ (collectCoin s now pick).activePowerUpType = s.activePowerUpType
            ∧ (collectCoin s now pick).coinsCollectedForPowerUp
                = s.coinsCollectedForPowerUp + 1) := by
  refine ⟨fun h => by simp [triggerPowerUp, h], fun h => ?_, fun h h20 => ?_,
    fun h h20 => ?_⟩
  · by_cases hw : now - s.lastCoinCollectTime < comboTimeWindow <;>
      simp [collectCoin, triggerPowerUp, hw, h]
  · by_cases hw : now - s.lastCoinCollectTime < comboTimeWindow <;>
      simp [collectCoin, triggerPowerUp, hw, h, h20]
  · by_cases hw : now - s.lastCoinCollectTime < comboTimeWindow <;>
      simp [collectCoin, triggerPowerUp, hw, h, Nat.not_le.mpr h20]

/-- Witness for C6: the 20th pickup with no power-up active triggers and
resets the counter; a pickup while a power-up is active does not. -/
theorem powerup_trigger_exactly_witness :
    preTriggerScene.powerUpActive = false
      ∧ (collectCoin preTriggerScene 5000 PowerUpType.shield).powerUpActive = true
      ∧ (collectCoin preTriggerScene 5000
            PowerUpType.shield).coinsCollectedForPowerUp = 0
      ∧ speedScene.powerUpActive = true
      ∧ (collectCoin speedScene 5000 PowerUpType.shield).powerUpActive = true
      ∧ (collectCoin speedScene 5000 PowerUpType.shield).activePowerUpType
          = some PowerUpType.speed
      ∧ (collectCoin speedScene 5000 PowerUpType.shield).coinsCollectedForPowerUp
          = 1 := by
  have h1 := (powerup_trigger_exactly preTriggerScene 5000
    PowerUpType.shield).2.2.1 rfl
    (by norm_num [preTriggerScene, constructorInit])
  have h2 := (powerup_trigger_exactly speedScene 5000 PowerUpType.shield).2.1 rfl
  refine ⟨rfl, h1.1, h1.2.2, rfl, h2.1, ?_, ?_⟩
  · rw [h2.2.1]; rfl
  · rw [h2.2.2]; rfl

lemma updateMovement_pressTick (s : PlayerState) (d : ℚ)
    (hdj : s.hasDoubleJumped = true) (hcoy : s.coyoteTimeCounter ≤ 0)
    (hd : 0 ≤ d) :
    updateMovement s (pressTick d) =
      ({ s with
          wasInAir := false
          coyoteTimeCounter := s.coyoteTimeCounter - d
          jumpBufferCounter := jumpBufferDuration - d }, 0) := by
  obtain ⟨v, dj, jd, ct, bc, wa⟩ := s
  simp only at hdj hcoy
  subst hdj
  have hc2 : ¬ (0 : ℚ) < ct - d := by simp only [not_lt]; linarith
  have h100 : (0 : ℚ) < jumpBufferDuration := by norm_num [jumpBufferDuration]
  simp [updateMovement, landingPhase, jumpPhase, bufferFastFallPhase, pressTick,
    hc2, h100]

lemma updateMovement_airTick (s : PlayerState) (d : ℚ)
    (hd : 0 ≤ d) (hb : d < s.jumpBufferCounter) :
    updateMovement s (airTick d) =
      ({ s with
          wasInAir := false
          coyoteTimeCounter := s.coyoteTimeCounter - d
          jumpBufferCounter := s.jumpBufferCounter - d }, 0) := by
  obtain ⟨v, dj, jd, ct, bc, wa⟩ := s
  simp only at hb
  have hbpos : (0 : ℚ) < bc := lt_of_le_of_lt hd hb
  simp [updateMovement, landingPhase, jumpPhase, bufferFastFallPhase, airTick,
    hbpos]

lemma updateMovement_landTick (s : PlayerState) (d : ℚ)
    (hb : 0 < s.jumpBufferCounter) :
    updateMovement s (landTick d) =
      ({ s with
          wasInAir := false
          hasDoubleJumped := false
          jumpDownActive := false
          velocityY := -575
          coyoteTimeCounter := 0
          jumpBufferCounter := 0 }, 1) := by
  obtain ⟨v, dj, jd, ct, bc, wa⟩ := s
  simp only at hb
  simp [updateMovement, landingPhase, jumpPhase, bufferFastFallPhase, landTick,
    hb]

lemma stepTicks_cons (s : PlayerState) (i : TickInput) (is : List TickInput) :
    stepTicks s (i :: is) = stepTicks (updateMovement s i).1 is := rfl

lemma groundJumps_cons (s : PlayerState) (i : TickInput) (is : List TickInput) :
    groundJumps s (i :: is)
      = (updateMovement s i).2 + groundJumps (updateMovement s i).1 is := rfl

lemma groundJumps_append (s : PlayerState) (xs ys : List TickInput) :
    groundJumps s (xs ++ ys)
      = groundJumps s xs + groundJumps (stepTicks s xs) ys := by
  induction xs generalizing s with
  | nil => simp [groundJumps, stepTicks]
  | cons i is ih =>
      simp only [List.cons_append, groundJumps_cons, stepTicks_cons, ih]
      omega

lemma stepTicks_append (s : PlayerState) (xs ys : List TickInput) :
    stepTicks s (xs ++ ys) = stepTicks (stepTicks s xs) ys := by
  induction xs generalizing s with
  | nil => simp [stepTicks]
  | cons i is ih => simp only [List.cons_append, stepTicks_cons, ih]

/-- Effect of a run of empty airborne ticks: coyote and buffer counters
decay by the summed deltas, nothing else changes, no jump executes. -/
lemma stepTicks_airTicks (s : PlayerState) (ds : List ℚ)
    (hds : ∀ d ∈ ds, 0 ≤ d) (hsum : ds.sum < s.jumpBufferCounter)
    (hair : s.wasInAir = false) :
    stepTicks s (ds.map airTick) =
        { s with
          coyoteTimeCounter := s.coyoteTimeCounter - ds.sum
          jumpBufferCounter := s.jumpBufferCounter - ds.sum }
      ∧ groundJumps s (ds.map airTick) = 0 := by
  induction ds generalizing s with
  | nil =>
      constructor
      · obtain ⟨v, dj, jd, ct, bc, wa⟩ := s
        simp only at hair
        subst hair
        simp [stepTicks]
      · simp [groundJumps]
  | cons d ds ih =>
      have hd : 0 ≤ d := hds d (by simp)
      have hds2 : ∀ x ∈ ds, 0 ≤ x := fun x hx => hds x (by simp [hx])
      have hsum2 : 0 ≤ ds.sum := List.sum_nonneg hds2
      have hdb : d < s.jumpBufferCounter := by
        have : d + ds.sum < s.jumpBufferCounter := by
          simpa [List.sum_cons] using hsum
        linarith
      have hstep := updateMovement_airTick s d hd hdb
      have ihres := ih { s with
          wasInAir := false
          coyoteTimeCounter := s.coyoteTimeCounter - d
          jumpBufferCounter := s.jumpBufferCounter - d }
        hds2
        (by
          simp only
          have : d + ds.sum < s.jumpBufferCounter := by
            simpa [List.sum_cons] using hsum
          linarith)
        rfl
      constructor
      · rw [List.map_cons, stepTicks_cons, hstep]
        rw [ihres.1]
        obtain ⟨v, dj, jd, ct, bc, wa⟩ := s
        simp only at hair
        subst hair
        simp [List.sum_cons]
        constructor <;> ring
      · rw [List.map_cons, groundJumps_cons, hstep]
        simpa using ihres.2

/--
Claim C7: if a jump is pressed while airborne with the double jump already
used (hence the coyote window consumed), and the landing tick arrives
before the 100ms jump-buffer window has elapsed, then no ground jump
executes before landing, exactly one ground jump (velocity -575) executes
on the landing tick, and the buffer counter is consumed to zero by that
jump.
-/
theorem buffered_jump_exactly_one (s : PlayerState) (d0 dL : ℚ) (ds : List ℚ)
    (hdj : s.hasDoubleJumped = true) (hcoy : s.coyoteTimeCounter ≤ 0)
    (hd0 : 0 ≤ d0) (hds : ∀ d ∈ ds, 0 ≤ d)
    (hwin : d0 + ds.sum < jumpBufferDuration) :
    groundJumps s (pressTick d0 :: ds.map airTick) = 0
      ∧ groundJumps s (bufferedTrace d0 dL ds) = 1
      ∧ (stepTicks s (bufferedTrace d0 dL ds)).velocityY = -575
      ∧ (stepTicks s (bufferedTrace d0 dL ds)).jumpBufferCounter = 0 := by
  have hpress := updateMovement_pressTick s d0 hdj hcoy hd0
  have hsum2 : 0 ≤ ds.sum := List.sum_nonneg hds
  set s1 : PlayerState :=
    { s with
      wasInAir := false
      coyoteTimeCounter := s.coyoteTimeCounter - d0
      jumpBufferCounter := jumpBufferDuration - d0 } with hs1
  have hair := stepTicks_airTicks s1 ds hds
    (by simp only [hs1]; linarith) rfl
  set s2 : PlayerState :=
    { s1 with
      coyoteTimeCounter := s1.coyoteTimeCounter - ds.sum
      jumpBufferCounter := s1.jumpBufferCounter - ds.sum } with hs2
  have hbuf2 : 0 < s2.jumpBufferCounter := by
    simp only [hs2, hs1]
    linarith
  have hland := updateMovement_landTick s2 dL hbuf2
  have hmid0 : groundJumps s (pressTick d0 :: ds.map airTick) = 0 := by
    rw [groundJumps_cons, hpress]
    simpa using hair.2
  have hstepmid : stepTicks s (pressTick d0 :: ds.map airTick) = s2 := by
    rw [stepTicks_cons, hpress]
    exact hair.1
  have htrace : bufferedTrace d0 dL ds
      = (pressTick d0 :: ds.map airTick) ++ [landTick dL] := by
    simp [bufferedTrace]
  refine ⟨hmid0, ?_, ?_, ?_⟩
  · rw [htrace, groundJumps_append, hmid0, hstepmid]
    rw [groundJumps_cons, hland]
    simp [groundJumps]
  · rw [htrace, stepTicks_append, hstepmid, stepTicks_cons, hland]
    simp [stepTicks]
  · rw [htrace, stepTicks_append, hstepmid, stepTicks_cons, hland]
    simp [stepTicks]

/-- Witness for C7: press 16ms into the air phase, two more 16ms airborne
ticks, landing after 48ms total — one ground jump on landing. -/
theorem buffered_jump_exactly_one_witness :
    airborneAfterDoubleJump.hasDoubleJumped = true
      ∧ airborneAfterDoubleJump.coyoteTimeCounter ≤ 0
      ∧ (0 : ℚ) ≤ 16
      ∧ (16 : ℚ) + ([(16 : ℚ), 16]).sum < jumpBufferDuration
      ∧ groundJumps airborneAfterDoubleJump
          (pressTick 16 :: ([(16 : ℚ), 16]).map airTick) = 0
      ∧ groundJumps airborneAfterDoubleJump (bufferedTrace 16 20 [(16 : ℚ), 16]) = 1
      ∧ (stepTicks airborneAfterDoubleJump
          (bufferedTrace 16 20 [(16 : ℚ), 16])).velocityY = -575
      ∧ (stepTicks airborneAfterDoubleJump
          (bufferedTrace 16 20 [(16 : ℚ), 16])).jumpBufferCounter = 0 := by
  have h := buffered_jump_exactly_one airborneAfterDoubleJump 16 20 [(16 : ℚ), 16]
    rfl (by norm_num [airborneAfterDoubleJump]) (by norm_num)
    (by norm_num) (by norm_num [jumpBufferDuration])
  exact ⟨rfl, by norm_num [airborneAfterDoubleJump], by norm_num,
    by norm_num [jumpBufferDuration], h.1, h.2.1, h.2.2.1, h.2.2.2⟩

/--
Claim C8: on any tick where the character is airborne and the fast-fall
key is pressed, a fixed downward velocity of 500 is applied and the
fast-falling flag is set — except when the jump-buffer counter is positive
at that point of the tick, in which case the pending buffered jump takes
priority: the fast-fall input has no effect and the buffer is merely
decremented.
-/
theorem fastfall_buffer_priority (s : PlayerState) (i : TickInput)
    (hg : i.touchingGround = false) (hd : i.downPressed = true) :
    (0 < (jumpPhase (landingPhase s i).1 i).1.jumpBufferCounter →
        (updateMovement s i).1
          = { (jumpPhase (landingPhase s i).1 i).1 with
              jumpBufferCounter :=
                (jumpPhase (landingPhase s i).1 i).1.jumpBufferCounter
                  - i.delta })
      ∧ ((jumpPhase (landingPhase s i).1 i).1.jumpBufferCounter ≤ 0 →
          (updateMovement s i).1
            = { (jumpPhase (landingPhase s i).1 i).1 with
                velocityY := 500
                jumpDownActive := true }) := by
  constructor
  · intro hb
    simp only [updateMovement, bufferFastFallPhase, if_pos hb]
  · intro hb
    have hb2 : ¬ 0 < (jumpPhase (landingPhase s i).1 i).1.jumpBufferCounter :=
      not_lt.mpr hb
    simp only [updateMovement, bufferFastFallPhase, if_neg hb2, hd, hg]
    simp

/-- Witness for C8: an airborne tick with fast-fall pressed and an empty
buffer applies velocity 500 and sets the fast-fall flag. -/
theorem fastfall_buffer_priority_witness :
    ((⟨16, false, true, false⟩ : TickInput)).touchingGround = false
      ∧ ((⟨16, false, true, false⟩ : TickInput)).downPressed = true
      ∧ (jumpPhase (landingPhase airborneAfterDoubleJump
            ⟨16, false, true, false⟩).1
            ⟨16, false, true, false⟩).1.jumpBufferCounter ≤ 0
      ∧ (updateMovement airborneAfterDoubleJump
            ⟨16, false, true, false⟩).1.velocityY = 500
      ∧ (updateMovement airborneAfterDoubleJump
            ⟨16, false, true, false⟩).1.jumpDownActive = true := by
  have hb : (jumpPhase (landingPhase airborneAfterDoubleJump
      ⟨16, false, true, false⟩).1
      ⟨16, false, true, false⟩).1.jumpBufferCounter ≤ 0 := by
    norm_num [jumpPhase, landingPhase, airborneAfterDoubleJump]
  have h := (fastfall_buffer_priority airborneAfterDoubleJump
    ⟨16, false, true, false⟩ rfl rfl).2 hb
  refine ⟨rfl, rfl, hb, ?_, ?_⟩ <;> rw [h]

/--
Counterexample for C9: at a grounded overlap with the character's bottom
exactly at the pit's top edge (at the surface), the spec-side predicate
says the run ends, but `playerFellInPit` does not end it — the code
requires the bottom to be at least 5 pixels below the pit body's top
(`player.body.bottom >= pit.body.top + 5`), so the claimed
"at or below the pit's surface" threshold is off by the 5-pixel tolerance.
-/
theorem pit_surface_claim_false :
    playerFellInPit false atSurfaceOverlap = false
      ∧ pitFatalSpec atSurfaceOverlap = true
      ∧ atSurfaceOverlap.touchingDown = true := by
  refine ⟨?_, ?_, rfl⟩ <;>
    norm_num [playerFellInPit, pitFatalSpec, atSurfaceOverlap]

/--
Claim C9 as amended: while the run is active, a pit overlap ends the run
if and only if the character is ground-contacted and its bottom is at
least 5 pixels below the pit body's top edge; an airborne overlap over a
pit never ends the run, and no pit overlap ends the run after game over.
-/
theorem pit_fatal_iff (go : Bool) (e : PitOverlap) :
    (playerFellInPit go e = true
        ↔ go = false ∧ e.touchingDown = true ∧ e.pitTop + 5 ≤ e.playerBottom)
      ∧ (e.touchingDown = false → playerFellInPit go e = false) := by
  constructor
  · cases go <;> simp [playerFellInPit, and_assoc]
  · intro h
    cases go <;> simp [playerFellInPit, h]

/-- Witness for C9 (amended): a grounded overlap 6 pixels into the pit is
fatal; an airborne overlap at the same depth is not. -/
theorem pit_fatal_iff_witness :
    playerFellInPit false
        { touchingDown := true, playerBottom := 486, pitTop := 480 } = true
      ∧ playerFellInPit false
          { touchingDown := false, playerBottom := 486, pitTop := 480 } = false :=
  ⟨(pit_fatal_iff false
      { touchingDown := true, playerBottom := 486, pitTop := 480 }).1.mpr
      ⟨rfl, rfl, by norm_num⟩,
   (pit_fatal_iff false
      { touchingDown := false, playerBottom := 486, pitTop := 480 }).2 rfl⟩

end MyobDash
